import Mathlib

/-!
Shallow embedding of `feed_txt_to_InfluxDBv1_v1.py`, a log-forwarding agent
that tails rotating `*.txt` files, parses marker-prefixed lines and forwards
each record to InfluxDB through one `curl` invocation per record.

Python strings are modelled as Lean `String` (a `List Char` underneath), the
file system and the remote endpoint as explicit environment functions, and the
`process_files` polling loop as a small-step state machine whose step function
is translated statement by statement from the source.
-/

/-! ## Python string primitives used by the script -/

/-- ASCII whitespace removed by Python `str.strip()` (the further Unicode
space characters cannot occur in the log format and are omitted). -/
def pyWs (c : Char) : Bool :=
  c = ' ' || c = '\t' || c = '\n' || c = '\r' || c = '\x0b' || c = '\x0c'

/-- Python `str.strip()` on the underlying character list: drop leading and trailing
whitespace. -/
def pyStripL (l : List Char) : List Char :=
  ((l.dropWhile pyWs).reverse.dropWhile pyWs).reverse

/-- Python `line.strip()`. -/
def pyStrip (s : String) : String := String.mk (pyStripL s.data)

/-- Python `str.split(',')` on the character list: split at every comma,
keeping empty pieces; the result is never empty. -/
def splitComma : List Char → List (List Char)
  | [] => [[]]
  | c :: cs =>
    if c = ',' then [] :: splitComma cs
    else
      match splitComma cs with
      | [] => [[c]]
      | f :: rest => (c :: f) :: rest

/-- Python `line.split(',')`. -/
def pySplit (s : String) : List String := (splitComma s.data).map String.mk

/-- Python `s.startswith(p)`. -/
def pyStartsWith (s p : String) : Bool := p.data.isPrefixOf s.data

/-! ## Timestamp conversion: `iso_z_to_ns`

The script runs `calendar.timegm(time.strptime(iso_z, "%Y-%m-%dT%H:%M:%SZ"))`
and multiplies by `1_000_000_000`.  CPython compiles the format into a regular
expression: `%Y` is exactly four digits; `%m` is `1[0-2]|0[1-9]|[1-9]`;
`%d` is `3[01]|[12]\d|0[1-9]|[1-9]| [1-9]` (note the leading-space variant);
`%H` is `2[0-3]|[0-1]\d|\d`; `%M` is `[0-5]\d|\d`; `%S` is `6[0-1]|[0-5]\d|\d`;
the literals `-`, `T`, `:`, `Z` are matched case-insensitively and the whole
string must be consumed.  `_strptime` then validates the calendar date through
`datetime.date(year, month, day)`, which raises for year 0 or a day that
overflows the month.  Each numeric field is followed by a non-digit literal,
so regex backtracking is equivalent to taking the maximal digit run and
testing it against the per-field value sets; this is how the fields are
modelled below. -/

/-- Numeric value of a digit character. -/
def dval (c : Char) : Nat := c.toNat - 48

/-- Maximal run of leading digit characters, with the remainder. -/
def takeDigits : List Char → List Char × List Char
  | [] => ([], [])
  | c :: cs =>
    if c.isDigit then
      ((c :: (takeDigits cs).1), (takeDigits cs).2)
    else ([], c :: cs)

/-- Field `%Y`: exactly four digits. -/
def year4 : List Char → Option (Nat × List Char)
  | a :: b :: c :: d :: rest =>
    if a.isDigit && b.isDigit && c.isDigit && d.isDigit then
      some (1000 * dval a + 100 * dval b + 10 * dval c + dval d, rest)
    else none
  | _ => none

/-- A literal separator character. -/
def expect1 (a : Char) : List Char → Option (List Char)
  | c :: cs => if c = a then some cs else none
  | [] => none

/-- A literal letter, matched case-insensitively (CPython compiles the
format with `re.IGNORECASE`). -/
def expectCI (a b : Char) : List Char → Option (List Char)
  | c :: cs => if c = a || c = b then some cs else none
  | [] => none

/-- A one- or two-digit numeric field: the maximal digit run must have length
one or two and its value must satisfy the corresponding bound. -/
def numField (oneOk twoOk : Nat → Prop) [DecidablePred oneOk]
    [DecidablePred twoOk] (cs : List Char) : Option (Nat × List Char) :=
  match takeDigits cs with
  | ([c], rest) => if oneOk (dval c) then some (dval c, rest) else none
  | ([c1, c2], rest) =>
    if twoOk (10 * dval c1 + dval c2) then some (10 * dval c1 + dval c2, rest)
    else none
  | _ => none

/-- Field `%d`: as `numField`, plus the ` [1-9]` single-digit-after-space variant. -/
def dayField (cs : List Char) : Option (Nat × List Char) :=
  match cs with
  | c :: cs' =>
    if c = ' ' then
      match takeDigits cs' with
      | ([d], rest) => if 1 ≤ dval d then some (dval d, rest) else none
      | _ => none
    else numField (fun v => 1 ≤ v) (fun v => 1 ≤ v ∧ v ≤ 31) (c :: cs')
  | [] => none

/-- Leap year of the proleptic Gregorian calendar (`calendar.isleap`). -/
def isLeap (y : Nat) : Bool := (y % 4 == 0 && y % 100 != 0) || y % 400 == 0

/-- Length of month `m` (1-based) in year `y`. -/
def daysInMonth (y m : Nat) : Nat :=
  if m = 2 then (if isLeap y then 29 else 28)
  else if m = 4 ∨ m = 6 ∨ m = 9 ∨ m = 11 then 30
  else 31

/-- Days in the months of year `y` preceding month `m` (1-based). -/
def daysBeforeMonth (y m : Nat) : Nat :=
  (List.range (m - 1)).foldl (fun acc i => acc + daysInMonth y (i + 1)) 0

/-- Days in the proleptic Gregorian years before year `y`. -/
def daysBeforeYear (y : Nat) : Nat :=
  365 * (y - 1) + (y - 1) / 4 - (y - 1) / 100 + (y - 1) / 400

/-- Python `datetime.date(y, m, d).toordinal()`. -/
def toordinal (y m d : Nat) : Nat := daysBeforeYear y + daysBeforeMonth y m + d

/-- Python `calendar.timegm` on a UTC struct-time: seconds since 1970-01-01T00:00:00Z
(ordinal of 1970-01-01 is 719163). -/
def timegm (y m d h mi s : Nat) : Int :=
  ((toordinal y m d : Int) - 719163) * 86400 + (h : Int) * 3600 + (mi : Int) * 60 + (s : Int)

/-- Python `time.strptime(s, "%Y-%m-%dT%H:%M:%SZ")`, returning the six parsed
components, or `none` when the Python call raises `ValueError`. -/
def strptime_iso_z (s : String) : Option (Nat × Nat × Nat × Nat × Nat × Nat) := do
  let (y, r1) ← year4 s.data
  let r2 ← expect1 '-' r1
  let (m, r3) ← numField (fun v => 1 ≤ v) (fun v => 1 ≤ v ∧ v ≤ 12) r2
  let r4 ← expect1 '-' r3
  let (d, r5) ← dayField r4
  let r6 ← expectCI 'T' 't' r5
  let (h, r7) ← numField (fun _ => True) (fun v => v ≤ 23) r6
  let r8 ← expect1 ':' r7
  let (mi, r9) ← numField (fun _ => True) (fun v => v ≤ 59) r8
  let r10 ← expect1 ':' r9
  let (sec, r11) ← numField (fun _ => True) (fun v => v ≤ 61) r10
  let r12 ← expectCI 'Z' 'z' r11
  if r12 = [] then
    if 1 ≤ y ∧ d ≤ daysInMonth y m then some (y, m, d, h, mi, sec) else none
  else none

/-- The function `iso_z_to_ns`: epoch nanoseconds of the parsed timestamp, `none` when the
Python function raises. -/
def iso_z_to_ns (s : String) : Option Int :=
  (strptime_iso_z s).map fun t =>
    timegm t.1 t.2.1 t.2.2.1 t.2.2.2.1 t.2.2.2.2.1 t.2.2.2.2.2 * 1000000000


/-! ## Configuration constants -/

def HOST : String := "hostname"

def PORT : String := "8086"

def INFLUXDB_DB_NAME : String := "influxdb_name"

def MEASUREMENT : String := "mydatameasurement"

def CHECK_INTERVAL : Nat := 60

def INFLUXDB_URL : String :=
  "http://" ++ HOST ++ ":" ++ PORT ++ "/write?db=" ++ INFLUXDB_DB_NAME

/-- The `expected_len` of `process_line`: measurement marker + host + 15 schema
fields + timestamp. -/
def expected_len : Nat := 2 + 15 + 1

/-! ## Point sender

`Sender.send` runs `subprocess.run(['curl','-f','-sS','-XPOST',url,
'--data-binary',line_protocol], check=True, capture_output=True, text=True,
timeout=timeout)` exactly once.  The environment's reaction to that single
invocation is a `CurlBehavior`: `curl -f` exits non-zero when the endpoint is
unreachable or the HTTP response is an error status, `subprocess` raises
`TimeoutExpired` past the timeout, `FileNotFoundError` when `curl` is absent.
On any failure the handler logs, prints and re-raises. -/

inductive CurlBehavior
  | success
  | calledProcessError (returncode : Int) (stderr stdout : String)
  | timeoutExpired
  | fileNotFound
  | otherError (msg : String)
  deriving DecidableEq

/-- Outcome of one `Sender.send` call: how many `subprocess.run` invocations
were made, whether the call raised, and the log lines it appended. -/
structure SendOut where
  attempts : Nat
  raised : Bool
  logs : List String
  deriving DecidableEq

/-- The `Sender` class: wrapper around `curl` holding the target URL. -/
structure Sender where
  url : String

/-- Method `Sender.send(line_protocol, timeout)`; the exception texts interpolated
into the log messages are abbreviated to fixed tags. -/
def Sender.send (snd : Sender) (b : CurlBehavior) (line_protocol : String)
    (timeout : Nat) : SendOut :=
  match b with
  | .success => ⟨1, false, []⟩
  | .calledProcessError rc stderr stdout =>
    ⟨1, true, ["[ERROR] curl exited with code " ++ toString rc ++ ": "
      ++ pyStrip (if stderr ≠ "" then stderr else if stdout ≠ "" then stdout else "")]⟩
  | .timeoutExpired =>
    ⟨1, true, ["[ERROR] curl timeout after " ++ toString timeout ++ "s: TimeoutExpired"]⟩
  | .fileNotFound => ⟨1, true, ["[ERROR] curl not found on PATH"]⟩
  | .otherError msg => ⟨1, true, ["[ERROR] Unexpected error during curl: " ++ msg]⟩

/-! ## Record codec: `process_line` -/

/-- Outcome of one `process_line` call: the line-protocol payloads handed to
the sender (none or exactly one), the log lines appended, and whether the call
raised (a raised call terminates the loop in `process_files`). -/
structure PLOut where
  sends : List String
  logs : List String
  raised : Bool
  deriving DecidableEq

/-- The `fields` f-string of `process_line` over `parts = line.split(',')`. -/
def fieldsOf (parts : List String) : String :=
  "T1=" ++ parts.getD 2 "" ++ ",T2=" ++ parts.getD 3 "" ++ ",T3=" ++ parts.getD 4 ""
    ++ ",T4=" ++ parts.getD 5 "" ++ ",Pwr1=" ++ parts.getD 6 "" ++ ",Pwr2=" ++ parts.getD 7 ""
    ++ ",Pwr3=" ++ parts.getD 8 "" ++ ",Pwr4=" ++ parts.getD 9 "" ++ ",LEDamp=" ++ parts.getD 10 ""
    ++ ",LEDwidth=" ++ parts.getD 11 "" ++ ",Threshold=" ++ parts.getD 12 "" ++ ",V1=" ++ parts.getD 13 ""
    ++ ",V2=" ++ parts.getD 14 "" ++ ",V3=" ++ parts.getD 15 "" ++ ",V4=" ++ parts.getD 16 ""

/-- The `line_protocol` f-string:
`f"{MEASUREMENT},{tags} {fields} {measurement_time}"` with `tags = f"host={parts[1]}"`. -/
def line_protocol_of (parts : List String) (measurement_time : Int) : String :=
  MEASUREMENT ++ ",host=" ++ parts.getD 1 "" ++ " " ++ fieldsOf parts ++ " "
    ++ toString measurement_time

/-- The function `process_line(line, sender, line_number)`.  `curl` is the environment's
reaction to the (at most one) transmission.  Wrong field count logs `[SKIP]`
and returns; a `ValueError` from `iso_z_to_ns` or a sender failure is logged
by the `except` handler and re-raised; success logs `[PARSED]` in the `else`
clause.  The `Reason:` interpolations of the Python exception texts are
abbreviated to fixed tags. -/
def process_line (curl : String → CurlBehavior) (line : String)
    (line_number : Nat) : PLOut :=
  if (pySplit line).length ≠ expected_len then
    ⟨[], ["[SKIP] Unexpected 'expected_len' in line " ++ toString line_number
          ++ " : " ++ line], false⟩
  else
    match iso_z_to_ns ((pySplit line).getLastD "") with
    | none =>
      ⟨[], ["[ERROR] Parse failed on Line " ++ toString line_number ++ " : "
            ++ line ++ " | Reason: ValueError"], true⟩
    | some t =>
      if (Sender.send ⟨INFLUXDB_URL⟩ (curl (line_protocol_of (pySplit line) t))
            (line_protocol_of (pySplit line) t) 10).raised then
        ⟨[line_protocol_of (pySplit line) t],
         (Sender.send ⟨INFLUXDB_URL⟩ (curl (line_protocol_of (pySplit line) t))
            (line_protocol_of (pySplit line) t) 10).logs
           ++ ["[ERROR] Parse failed on Line " ++ toString line_number ++ " : "
               ++ line ++ " | Reason: SendError"], true⟩
      else
        ⟨[line_protocol_of (pySplit line) t],
         (Sender.send ⟨INFLUXDB_URL⟩ (curl (line_protocol_of (pySplit line) t))
            (line_protocol_of (pySplit line) t) 10).logs
           ++ ["[PARSED] Line " ++ toString line_number ++ " : " ++ line], false⟩

/-! ## Directory scanner -/

/-- Python `files.index(current)` (index of the first occurrence), as an
`Option` standing for the `ValueError` path. -/
def list_index (x : String) : List String → Option Nat
  | [] => none
  | y :: ys => if y = x then some 0 else (list_index x ys).map (· + 1)

/-- The function `find_next_file(current, files)`: the entry after the first occurrence of
`current`, `None` past the end, and `files[-1] if files else None` when
`current` is absent.  `files` stands for `list_txt_files`'s listing of `*.txt`
files sorted ascending by mtime. -/
def find_next_file (current : String) (files : List String) : Option String :=
  match list_index current files with
  | none => files.getLast?
  | some idx => if idx + 1 < files.length then files.get? (idx + 1) else none

/-! ## Tailing engine: `process_files` as a small-step state machine

One step is one basic block of the loop body:
* `Phase.opening` — the head of the outer loop: `current.open()` (fatal when
  the file is gone, since both `except` clauses re-raise), the `[OPEN]` log
  and `line_number = 0`;
* `Phase.reading` — the first `f.readline()` of the inner loop body; when it
  yields no matching line the code falls through to `time.sleep(wait_time)`,
  so this phase also performs the sleep on that path;
* `Phase.slept` — the second `f.readline()` after the sleep, followed (when it
  again yields no matching line) by the `find_next_file` rotation check.

The cursor is the file handle's line position; `readline` past the end of the
current content returns `""` (falsy in `if line:`).  `Env` is the snapshot of
the file system and of the remote endpoint consulted during a step. -/

inductive Phase
  | opening
  | reading
  | slept
  deriving DecidableEq

structure EngineState where
  current : String
  cursor : Nat
  line_number : Nat
  phase : Phase
  deriving DecidableEq

/-- Observable effects of one step: payloads handed to `curl`, log lines
appended, and whether `time.sleep` ran. -/
structure StepOut where
  sends : List String
  logs : List String
  slept : Bool
  deriving DecidableEq

inductive StepResult
  | ok (s : EngineState) (out : StepOut)
  | fatal (out : StepOut)
  deriving DecidableEq

/-- Environment snapshot: per-file line contents, the sorted `*.txt` listing
of the directory, file existence for `open`, and the endpoint's reaction to
each payload. -/
structure Env where
  content : String → List String
  listing : List String
  present : String → Bool
  curl : String → CurlBehavior

/-- Python `f.readline()` at the engine's cursor (`""` at EOF). -/
def readline (env : Env) (s : EngineState) : String :=
  (env.content s.current).getD s.cursor ""

/-- The rotation check at the bottom of the inner loop: `find_next_file`;
a successor breaks to the outer loop (which reopens), otherwise the inner
loop restarts at the first read. -/
def rotateCheck (env : Env) (s : EngineState) : StepResult :=
  match find_next_file s.current env.listing with
  | some newer => .ok ⟨newer, s.cursor, s.line_number, .opening⟩ ⟨[], [], false⟩
  | none => .ok ⟨s.current, s.cursor, s.line_number, .reading⟩ ⟨[], [], false⟩

/-- The first `readline` block.  Note the missing `continue` in the source: a
truthy line that does not start with `MEASUREMENT` falls through to
`time.sleep(wait_time)`, hence `slept = true` and `Phase.slept` on that path
exactly as on the EOF path. -/
def firstAction (env : Env) (s : EngineState) (raw : String) : StepResult :=
  if raw = "" then .ok ⟨s.current, s.cursor, s.line_number, .slept⟩ ⟨[], [], true⟩
  else if pyStartsWith (pyStrip raw) MEASUREMENT then
    if (process_line env.curl (pyStrip raw) (s.line_number + 1)).raised then
      .fatal ⟨(process_line env.curl (pyStrip raw) (s.line_number + 1)).sends,
              (process_line env.curl (pyStrip raw) (s.line_number + 1)).logs, false⟩
    else
      .ok ⟨s.current, s.cursor + 1, s.line_number + 1, .reading⟩
        ⟨(process_line env.curl (pyStrip raw) (s.line_number + 1)).sends,
         (process_line env.curl (pyStrip raw) (s.line_number + 1)).logs, false⟩
  else .ok ⟨s.current, s.cursor + 1, s.line_number + 1, .slept⟩ ⟨[], [], true⟩

/-- The second `readline` block after the sleep; with again no matching line
it falls through to the rotation check (with the cursor advanced past a
truthy non-matching line). -/
def secondAction (env : Env) (s : EngineState) (raw : String) : StepResult :=
  if raw = "" then rotateCheck env s
  else if pyStartsWith (pyStrip raw) MEASUREMENT then
    if (process_line env.curl (pyStrip raw) (s.line_number + 1)).raised then
      .fatal ⟨(process_line env.curl (pyStrip raw) (s.line_number + 1)).sends,
              (process_line env.curl (pyStrip raw) (s.line_number + 1)).logs, false⟩
    else
      .ok ⟨s.current, s.cursor + 1, s.line_number + 1, .reading⟩
        ⟨(process_line env.curl (pyStrip raw) (s.line_number + 1)).sends,
         (process_line env.curl (pyStrip raw) (s.line_number + 1)).logs, false⟩
  else rotateCheck env ⟨s.current, s.cursor + 1, s.line_number + 1, s.phase⟩

/-- The call `current.open(...)` plus the `[OPEN]` log and `line_number = 0`.  A
missing file raises `FileNotFoundError`, which both `except` clauses of
`process_files` re-raise. -/
def openStep (env : Env) (s : EngineState) : StepResult :=
  if env.present s.current then
    .ok ⟨s.current, 0, 0, .reading⟩
      ⟨[], ["[OPEN] Processing file: " ++ s.current], false⟩
  else .fatal ⟨[], [], false⟩

/-- One small step of `process_files`. -/
def step (env : Env) (s : EngineState) : StepResult :=
  match s.phase with
  | .opening => openStep env s
  | .reading => firstAction env s (readline env s)
  | .slept => secondAction env s (readline env s)

/-- The observable output of a step result. -/
def outOf : StepResult → StepOut
  | .ok _ o => o
  | .fatal o => o

inductive RunResult
  | running (s : EngineState)
  | crashed (out : StepOut)
  deriving DecidableEq

/-- Iterated steps against a quiescent environment; `crashed` is an exception
propagating out of `process_files`. -/
def engineRun (env : Env) : EngineState → Nat → RunResult
  | s, 0 => .running s
  | s, fuel + 1 =>
    match step env s with
    | .ok s' _ => engineRun env s' fuel
    | .fatal out => .crashed out

/-- Function `main`'s exit status for a run: an exception reaching `main` hits
`except Exception` and `sys.exit(1)`; a still-running engine has not exited. -/
def exit_code : RunResult → Option Nat
  | .running _ => none
  | .crashed _ => some 1

/-- Function `main`'s two terminations: `KeyboardInterrupt` exits 0, any other
exception exits 1. -/
inductive MainOutcome
  | cleanInterrupt
  | fatalException
  deriving DecidableEq

def main_exit : MainOutcome → Nat
  | .cleanInterrupt => 0
  | .fatalException => 1

/-! ## Specification-side definitions (for refinement comparison only)

These two definitions follow the specification's words, not the source; they
are compared against the source-derived definitions above. -/

/-- The field names of the serialized record, in schema order. -/
def spec_field_names : List String :=
  ["T1", "T2", "T3", "T4", "Pwr1", "Pwr2", "Pwr3", "Pwr4", "LEDamp",
   "LEDwidth", "Threshold", "V1", "V2", "V3", "V4"]

/-- Comma-join of a list of strings. -/
def joinComma : List String → String
  | [] => ""
  | x :: xs => xs.foldl (fun a b => a ++ "," ++ b) x

/-- The spec's serialization sentence: `measurement,host=<host>` , a space,
the comma-joined `name=value` assignments, a space, the nanosecond
timestamp; no escaping of field values. -/
def spec_serialize (host : String) (vals : List String) (ts : Int) : String :=
  MEASUREMENT ++ ",host=" ++ host ++ " "
    ++ joinComma ((spec_field_names.zip vals).map fun p => p.1 ++ "=" ++ p.2)
    ++ " " ++ toString ts

/-- The spec's words for the timestamp field: "an ISO-8601 UTC timestamp of
the exact form `YYYY-MM-DDTHH:MM:SSZ`; convert to epoch nanoseconds" — four
zero-padded digit groups with literal `-`, `T`, `:`, `Z`, denoting a valid
calendar date and time of day. -/
def spec_exact_parse (s : String) : Option Int :=
  match s.data with
  | [y1, y2, y3, y4, a1, mo1, mo2, a2, d1, d2, lt, h1, h2, b1, n1, n2, b2, e1, e2, lz] =>
    if y1.isDigit ∧ y2.isDigit ∧ y3.isDigit ∧ y4.isDigit ∧ mo1.isDigit ∧ mo2.isDigit
        ∧ d1.isDigit ∧ d2.isDigit ∧ h1.isDigit ∧ h2.isDigit ∧ n1.isDigit ∧ n2.isDigit
        ∧ e1.isDigit ∧ e2.isDigit ∧ a1 = '-' ∧ a2 = '-' ∧ lt = 'T' ∧ b1 = ':'
        ∧ b2 = ':' ∧ lz = 'Z' then
      if 1 ≤ 1000 * dval y1 + 100 * dval y2 + 10 * dval y3 + dval y4
          ∧ 1 ≤ 10 * dval mo1 + dval mo2 ∧ 10 * dval mo1 + dval mo2 ≤ 12
          ∧ 1 ≤ 10 * dval d1 + dval d2
          ∧ 10 * dval d1 + dval d2
              ≤ daysInMonth (1000 * dval y1 + 100 * dval y2 + 10 * dval y3 + dval y4)
                  (10 * dval mo1 + dval mo2)
          ∧ 10 * dval h1 + dval h2 ≤ 23 ∧ 10 * dval n1 + dval n2 ≤ 59
          ∧ 10 * dval e1 + dval e2 ≤ 59 then
        some (timegm (1000 * dval y1 + 100 * dval y2 + 10 * dval y3 + dval y4)
                (10 * dval mo1 + dval mo2) (10 * dval d1 + dval d2)
                (10 * dval h1 + dval h2) (10 * dval n1 + dval n2)
                (10 * dval e1 + dval e2) * 1000000000)
      else none
    else none
  | _ => none

/-! ## Concrete environments used in counterexamples and witnesses -/

/-- A directory with `a.txt` (two junk lines, then a candidate record line)
and a newer `b.txt`; the endpoint accepts everything. -/
def envRot : Env where
  content := fun p =>
    if p = "a.txt" then
      ["junk1\n", "junk2\n",
       "mydatameasurement,host1,1,2,3,4,5,6,7,8,9,10,11,12,13,14,15,2025-06-09T21:58:12Z\n"]
    else ["other\n"]
  listing := ["a.txt", "b.txt"]
  present := fun _ => true
  curl := fun _ => CurlBehavior.success

/-- A single file whose first line is junk and whose second is a candidate. -/
def envJunk : Env where
  content := fun p =>
    if p = "a.txt" then
      ["junk\n",
       "mydatameasurement,host1,1,2,3,4,5,6,7,8,9,10,11,12,13,14,15,2025-06-09T21:58:12Z\n"]
    else []
  listing := ["a.txt"]
  present := fun _ => true
  curl := fun _ => CurlBehavior.success

/-- A candidate line with too few fields, followed by a well-formed record. -/
def envSkip : Env where
  content := fun p =>
    if p = "a.txt" then
      ["mydatameasurement,host1,only,three\n",
       "mydatameasurement,host1,1,2,3,4,5,6,7,8,9,10,11,12,13,14,15,2025-06-09T21:58:12Z\n"]
    else []
  listing := ["a.txt"]
  present := fun _ => true
  curl := fun _ => CurlBehavior.success

/-- A well-formed record line whose transmission times out. -/
def envSendFail : Env where
  content := fun p =>
    if p = "a.txt" then
      ["mydatameasurement,host1,1,2,3,4,5,6,7,8,9,10,11,12,13,14,15,2025-06-09T21:58:12Z\n"]
    else []
  listing := ["a.txt"]
  present := fun _ => true
  curl := fun _ => CurlBehavior.timeoutExpired

/-- A candidate line with the right field count but an unparseable timestamp. -/
def envBadTs : Env where
  content := fun p =>
    if p = "a.txt" then
      ["mydatameasurement,host1,1,2,3,4,5,6,7,8,9,10,11,12,13,14,15,notatime\n"]
    else []
  listing := ["a.txt"]
  present := fun _ => true
  curl := fun _ => CurlBehavior.success

/-- An exhausted file in a directory whose listing is empty, and a missing
file: used for the non-fatality analysis. -/
def envGone : Env where
  content := fun _ => []
  listing := []
  present := fun _ => false
  curl := fun _ => CurlBehavior.success


/-! ## Helper lemmas -/

theorem string_data_inj {s t : String} (h : s.data = t.data) : s = t := by
  cases s
  cases t
  exact congrArg String.mk h

theorem send_attempts_one (snd : Sender) (b : CurlBehavior) (lp : String) (t : Nat) :
    (Sender.send snd b lp t).attempts = 1 := by
  cases b <;> rfl

theorem send_raised_iff (snd : Sender) (b : CurlBehavior) (lp : String) (t : Nat) :
    (Sender.send snd b lp t).raised = true ↔ b ≠ CurlBehavior.success := by
  cases b <;> simp [Sender.send]

theorem step_of_reading (env : Env) (s : EngineState) (h : s.phase = Phase.reading) :
    step env s = firstAction env s (readline env s) := by
  obtain ⟨cur, c, n, ph⟩ := s
  cases h
  rfl

theorem step_of_slept (env : Env) (s : EngineState) (h : s.phase = Phase.slept) :
    step env s = secondAction env s (readline env s) := by
  obtain ⟨cur, c, n, ph⟩ := s
  cases h
  rfl

theorem step_of_opening (env : Env) (s : EngineState) (h : s.phase = Phase.opening) :
    step env s = openStep env s := by
  obtain ⟨cur, c, n, ph⟩ := s
  cases h
  rfl

theorem process_line_skip (curl : String → CurlBehavior) (line : String) (n : Nat)
    (h : (pySplit line).length ≠ expected_len) :
    process_line curl line n =
      ⟨[], ["[SKIP] Unexpected 'expected_len' in line " ++ toString n ++ " : " ++ line],
       false⟩ := by
  unfold process_line
  rw [if_pos h]

theorem process_line_badts (curl : String → CurlBehavior) (line : String) (n : Nat)
    (hlen : (pySplit line).length = expected_len)
    (hts : iso_z_to_ns ((pySplit line).getLastD "") = none) :
    process_line curl line n =
      ⟨[], ["[ERROR] Parse failed on Line " ++ toString n ++ " : " ++ line
            ++ " | Reason: ValueError"], true⟩ := by
  unfold process_line
  rw [if_neg (fun hc => hc hlen), hts]

theorem process_line_sent (curl : String → CurlBehavior) (line : String) (n : Nat)
    (t : Int) (hlen : (pySplit line).length = expected_len)
    (hts : iso_z_to_ns ((pySplit line).getLastD "") = some t)
    (hok : curl (line_protocol_of (pySplit line) t) = CurlBehavior.success) :
    process_line curl line n =
      ⟨[line_protocol_of (pySplit line) t],
       ["[PARSED] Line " ++ toString n ++ " : " ++ line], false⟩ := by
  unfold process_line
  rw [if_neg (fun hc => hc hlen)]
  simp only [hts]
  rw [hok]
  rfl

theorem process_line_sendfail (curl : String → CurlBehavior) (line : String) (n : Nat)
    (t : Int) (hlen : (pySplit line).length = expected_len)
    (hts : iso_z_to_ns ((pySplit line).getLastD "") = some t)
    (hfail : curl (line_protocol_of (pySplit line) t) ≠ CurlBehavior.success) :
    process_line curl line n =
      ⟨[line_protocol_of (pySplit line) t],
       (Sender.send ⟨INFLUXDB_URL⟩ (curl (line_protocol_of (pySplit line) t))
          (line_protocol_of (pySplit line) t) 10).logs
         ++ ["[ERROR] Parse failed on Line " ++ toString n ++ " : " ++ line
             ++ " | Reason: SendError"], true⟩ := by
  unfold process_line
  rw [if_neg (fun hc => hc hlen)]
  simp only [hts]
  rw [if_pos ((send_raised_iff ⟨INFLUXDB_URL⟩ _ _ 10).2 hfail)]

theorem step_reading_sent (env : Env) (s : EngineState)
    (hp : s.phase = Phase.reading) (h0 : readline env s ≠ "")
    (h1 : pyStartsWith (pyStrip (readline env s)) MEASUREMENT = true)
    (h2 : (pySplit (pyStrip (readline env s))).length = expected_len)
    (ts : Int)
    (h3 : iso_z_to_ns ((pySplit (pyStrip (readline env s))).getLastD "") = some ts)
    (h4 : env.curl (line_protocol_of (pySplit (pyStrip (readline env s))) ts)
        = CurlBehavior.success) :
    step env s = StepResult.ok ⟨s.current, s.cursor + 1, s.line_number + 1, Phase.reading⟩
      ⟨[line_protocol_of (pySplit (pyStrip (readline env s))) ts],
       ["[PARSED] Line " ++ toString (s.line_number + 1) ++ " : "
        ++ pyStrip (readline env s)], false⟩ := by
  rw [step_of_reading env s hp]
  unfold firstAction
  rw [if_neg h0, if_pos h1, process_line_sent env.curl _ _ ts h2 h3 h4]
  rfl

theorem step_reading_fatal (env : Env) (s : EngineState)
    (hp : s.phase = Phase.reading) (h0 : readline env s ≠ "")
    (h1 : pyStartsWith (pyStrip (readline env s)) MEASUREMENT = true)
    (hr : (process_line env.curl (pyStrip (readline env s)) (s.line_number + 1)).raised
        = true) :
    step env s = StepResult.fatal
      ⟨(process_line env.curl (pyStrip (readline env s)) (s.line_number + 1)).sends,
       (process_line env.curl (pyStrip (readline env s)) (s.line_number + 1)).logs,
       false⟩ := by
  rw [step_of_reading env s hp]
  unfold firstAction
  rw [if_neg h0, if_pos h1, if_pos hr]

theorem crashed_of_fatal (env : Env) (s : EngineState) (out : StepOut)
    (h : step env s = StepResult.fatal out) :
    exit_code (engineRun env s 1) = some 1 := by
  unfold engineRun
  rw [h]
  rfl

theorem list_index_none {x : String} {l : List String} :
    list_index x l = none ↔ x ∉ l := by
  induction l with
  | nil => simp [list_index]
  | cons y ys ih =>
    by_cases h : y = x
    · subst h
      simp [list_index]
    · simp [list_index, h, ih, Ne.symm h]

theorem list_index_of_nodup {l : List String} {x : String} (hn : l.Nodup)
    (i : Nat) (hi : l.get? i = some x) : list_index x l = some i := by
  induction l generalizing i with
  | nil => simp at hi
  | cons y ys ih =>
    cases i with
    | zero =>
      simp only [List.get?] at hi
      injection hi with hi
      subst hi
      simp [list_index]
    | succ j =>
      simp only [List.get?] at hi
      have hmem : x ∈ ys := List.get?_mem hi
      have hyx : ¬(y = x) := by
        intro h
        subst h
        exact (List.nodup_cons.1 hn).1 hmem
      simp [list_index, hyx, ih (List.nodup_cons.1 hn).2 j hi]

/-! ## Claim C1 -/

/-- C1 (code bug): the engine does not always attempt every candidate line of
the current file before opening its successor.  Starting to read `a.txt` in
`envRot`, two consecutive non-candidate lines drive the engine through the
sleeping phase straight to the rotation check, which switches to the newer
`b.txt` even though the unread line at index 2 of `a.txt` is a candidate
(the two steps hand nothing to the sender).  The cause is the missing
`continue` after a truthy non-matching `readline` in `process_files`. -/
theorem rotation_skips_candidate :
    step envRot ⟨"a.txt", 0, 0, Phase.reading⟩ =
      StepResult.ok ⟨"a.txt", 1, 1, Phase.slept⟩ ⟨[], [], true⟩ ∧
    step envRot ⟨"a.txt", 1, 1, Phase.slept⟩ =
      StepResult.ok ⟨"b.txt", 2, 2, Phase.opening⟩ ⟨[], [], false⟩ ∧
    pyStartsWith (pyStrip ((envRot.content "a.txt").getD 2 "")) MEASUREMENT = true ∧
    2 < (envRot.content "a.txt").length := by
  refine ⟨by decide, by decide, by decide, by decide⟩

/-! ## Claim C2 -/

/-- C2 (code bug): in the Reading state a line that is available but does not
start with the measurement marker advances the cursor and line number, but the
engine then sleeps (`slept = true`) and moves to the after-sleep read — the
Waiting-state read of the spec — instead of immediately attempting the next
read in Reading.  The `# EOF` comment in the source marks this fall-through
path as meant for end-of-file only. -/
theorem nonmarker_line_sleeps :
    pyStartsWith (pyStrip ((envJunk.content "a.txt").getD 0 "")) MEASUREMENT = false ∧
    step envJunk ⟨"a.txt", 0, 0, Phase.reading⟩ =
      StepResult.ok ⟨"a.txt", 1, 1, Phase.slept⟩ ⟨[], [], true⟩ := by
  refine ⟨by decide, by decide⟩

/-! ## Claim C7 -/

/-- C7: `find_next_file` returns the immediate successor of `current` in the
listing (in particular `none` when `current` is last), and the last file of
the listing when `current` is absent. -/
theorem find_next_file_correct (current : String) (files : List String) :
    (current ∉ files → find_next_file current files = files.getLast?) ∧
    (files.Nodup → ∀ i : Nat, files.get? i = some current →
      find_next_file current files = files.get? (i + 1)) ∧
    (files.Nodup → files.getLast? = some current →
      find_next_file current files = none) := by
  refine ⟨?_, ?_, ?_⟩
  · intro h
    unfold find_next_file
    rw [list_index_none.2 h]
  · intro hn i hi
    unfold find_next_file
    rw [list_index_of_nodup hn i hi]
    show (if i + 1 < files.length then files.get? (i + 1) else none) = files.get? (i + 1)
    by_cases h : i + 1 < files.length
    · rw [if_pos h]
    · rw [if_neg h, eq_comm, List.get?_eq_none]
      omega
  · intro hn hl
    have hi : files.get? (files.length - 1) = some current := by
      rw [← List.getLast?_eq_get?]
      exact hl
    unfold find_next_file
    rw [list_index_of_nodup hn _ hi]
    show (if files.length - 1 + 1 < files.length then files.get? (files.length - 1 + 1)
        else none) = none
    rw [if_neg (by omega)]

/-- C7 witness: concrete instances of the three cases. -/
theorem find_next_file_correct_w :
    find_next_file "b.txt" ["a.txt", "b.txt", "c.txt"] = some "c.txt" ∧
    find_next_file "c.txt" ["a.txt", "b.txt", "c.txt"] = none ∧
    find_next_file "x.txt" ["a.txt", "b.txt", "c.txt"] = some "c.txt" := by
  refine ⟨?_, ?_, ?_⟩
  · have h := (find_next_file_correct "b.txt" ["a.txt", "b.txt", "c.txt"]).2.1
      (by decide) 1 (by decide)
    simpa using h
  · exact (find_next_file_correct "c.txt" ["a.txt", "b.txt", "c.txt"]).2.2
      (by decide) (by decide)
  · have h := (find_next_file_correct "x.txt" ["a.txt", "b.txt", "c.txt"]).1 (by decide)
    simpa using h

/-! ## Claim C3 -/

/-- C3: `Sender.send` makes exactly one transmission attempt per call, with no
internal retry; every failing outcome of that single attempt (non-zero curl
exit — unreachable endpoint or an error response under `-f` —, exceeding the
timeout of 10, or a launch failure) makes the call raise; and such a failure
on a well-formed candidate line makes the engine step fatal, so the process
terminates with exit status 1. -/
theorem sender_failure_single_attempt_fatal (snd : Sender) (b : CurlBehavior)
    (lp : String) (t : Nat) (env : Env) (s : EngineState) :
    (Sender.send snd b lp t).attempts = 1 ∧
    ((Sender.send snd b lp t).raised = true ↔ b ≠ CurlBehavior.success) ∧
    (s.phase = Phase.reading →
      readline env s ≠ "" →
      pyStartsWith (pyStrip (readline env s)) MEASUREMENT = true →
      (pySplit (pyStrip (readline env s))).length = expected_len →
      ∀ ts : Int,
        iso_z_to_ns ((pySplit (pyStrip (readline env s))).getLastD "") = some ts →
        env.curl (line_protocol_of (pySplit (pyStrip (readline env s))) ts)
            ≠ CurlBehavior.success →
        (∃ out : StepOut, step env s = StepResult.fatal out) ∧
        exit_code (engineRun env s 1) = some 1) := by
  refine ⟨send_attempts_one snd b lp t, send_raised_iff snd b lp t, ?_⟩
  intro hp h0 h1 h2 ts h3 h4
  have hr : (process_line env.curl (pyStrip (readline env s))
      (s.line_number + 1)).raised = true := by
    rw [process_line_sendfail env.curl _ _ ts h2 h3 h4]
  have hstep := step_reading_fatal env s hp h0 h1 hr
  exact ⟨⟨_, hstep⟩, crashed_of_fatal env s _ hstep⟩

/-- C3 witness: a timeout on the single well-formed record of `envSendFail`
crashes the run with exit status 1. -/
theorem sender_failure_single_attempt_fatal_w :
    (∃ out : StepOut, step envSendFail ⟨"a.txt", 0, 0, Phase.reading⟩
        = StepResult.fatal out) ∧
    exit_code (engineRun envSendFail ⟨"a.txt", 0, 0, Phase.reading⟩ 1) = some 1 :=
  (sender_failure_single_attempt_fatal ⟨INFLUXDB_URL⟩ CurlBehavior.timeoutExpired "p" 10
      envSendFail ⟨"a.txt", 0, 0, Phase.reading⟩).2.2 rfl (by decide) (by decide)
    (by decide) 1749506292000000000 (by decide) (by decide)

/-! ## Claim C4 -/

/-- C4: a candidate line that splits into exactly the expected field count but
whose final field fails to parse as a timestamp makes the step fatal and the
process exit with status 1, and the diagnostic log entry written on the way
out contains the failing line's content and its line number. -/
theorem malformed_timestamp_fatal_logged (env : Env) (s : EngineState)
    (hp : s.phase = Phase.reading)
    (h0 : readline env s ≠ "")
    (h1 : pyStartsWith (pyStrip (readline env s)) MEASUREMENT = true)
    (h2 : (pySplit (pyStrip (readline env s))).length = expected_len)
    (h3 : iso_z_to_ns ((pySplit (pyStrip (readline env s))).getLastD "") = none) :
    ∃ pre post pre2 post2 : String,
      step env s = StepResult.fatal
        ⟨[], [pre ++ pyStrip (readline env s) ++ post], false⟩ ∧
      pre ++ pyStrip (readline env s) ++ post
        = pre2 ++ toString (s.line_number + 1) ++ post2 ∧
      exit_code (engineRun env s 1) = some 1 := by
  have hpl := process_line_badts env.curl (pyStrip (readline env s))
    (s.line_number + 1) h2 h3
  have hr : (process_line env.curl (pyStrip (readline env s))
      (s.line_number + 1)).raised = true := by
    rw [hpl]
  have hstep := step_reading_fatal env s hp h0 h1 hr
  rw [hpl] at hstep
  refine ⟨"[ERROR] Parse failed on Line " ++ toString (s.line_number + 1) ++ " : ",
    " | Reason: ValueError", "[ERROR] Parse failed on Line ",
    " : " ++ pyStrip (readline env s) ++ " | Reason: ValueError", ?_, ?_, ?_⟩
  · have hmsg : ("[ERROR] Parse failed on Line " ++ toString (s.line_number + 1)
        ++ " : ") ++ pyStrip (readline env s) ++ " | Reason: ValueError"
        = "[ERROR] Parse failed on Line " ++ toString (s.line_number + 1) ++ " : "
          ++ pyStrip (readline env s) ++ " | Reason: ValueError" := by
      simp [String.append_assoc]
    rw [hmsg]
    exact hstep
  · simp [String.append_assoc]
  · exact crashed_of_fatal env s _ hstep

/-- C4 witness: the unparseable timestamp of `envBadTs` is fatal and logged. -/
theorem malformed_timestamp_fatal_logged_w :
    ∃ pre post pre2 post2 : String,
      step envBadTs ⟨"a.txt", 0, 0, Phase.reading⟩ = StepResult.fatal
        ⟨[], [pre ++ pyStrip (readline envBadTs ⟨"a.txt", 0, 0, Phase.reading⟩) ++ post],
         false⟩ ∧
      pre ++ pyStrip (readline envBadTs ⟨"a.txt", 0, 0, Phase.reading⟩) ++ post
        = pre2 ++ toString (0 + 1) ++ post2 ∧
      exit_code (engineRun envBadTs ⟨"a.txt", 0, 0, Phase.reading⟩ 1) = some 1 :=
  malformed_timestamp_fatal_logged envBadTs ⟨"a.txt", 0, 0, Phase.reading⟩ rfl
    (by decide) (by decide) (by decide) (by decide)

/-! ## Claim C5 -/

/-- C5 counterexample: a line with the wrong comma-split field count that does
not start with the marker is skipped without any informational log entry (no
`[SKIP]` line is written; the engine also falls into the sleeping path). -/
theorem skip_unlogged_cx :
    (pySplit (pyStrip ((envJunk.content "a.txt").getD 0 ""))).length ≠ expected_len ∧
    step envJunk ⟨"a.txt", 0, 0, Phase.reading⟩ =
      StepResult.ok ⟨"a.txt", 1, 1, Phase.slept⟩ ⟨[], [], true⟩ := by
  refine ⟨by decide, by decide⟩

/-- C5 (amended): every candidate line (one that, after stripping, starts with
the measurement marker) whose comma-split field count differs from 18 is
skipped with an informational `[SKIP]` log entry and no error, and a
well-formed candidate on the following line is still processed. -/
theorem skip_wrong_field_count (env : Env) (s : EngineState)
    (hp : s.phase = Phase.reading)
    (h0 : readline env s ≠ "")
    (h1 : pyStartsWith (pyStrip (readline env s)) MEASUREMENT = true)
    (h2 : (pySplit (pyStrip (readline env s))).length ≠ expected_len) :
    step env s = StepResult.ok ⟨s.current, s.cursor + 1, s.line_number + 1, Phase.reading⟩
      ⟨[], ["[SKIP] Unexpected 'expected_len' in line " ++ toString (s.line_number + 1)
            ++ " : " ++ pyStrip (readline env s)], false⟩ ∧
    (∀ s' : EngineState,
      s' = ⟨s.current, s.cursor + 1, s.line_number + 1, Phase.reading⟩ →
      readline env s' ≠ "" →
      pyStartsWith (pyStrip (readline env s')) MEASUREMENT = true →
      (pySplit (pyStrip (readline env s'))).length = expected_len →
      ∀ ts : Int,
        iso_z_to_ns ((pySplit (pyStrip (readline env s'))).getLastD "") = some ts →
        env.curl (line_protocol_of (pySplit (pyStrip (readline env s'))) ts)
            = CurlBehavior.success →
        step env s' = StepResult.ok
          ⟨s.current, s.cursor + 1 + 1, s.line_number + 1 + 1, Phase.reading⟩
          ⟨[line_protocol_of (pySplit (pyStrip (readline env s'))) ts],
           ["[PARSED] Line " ++ toString (s.line_number + 1 + 1) ++ " : "
            ++ pyStrip (readline env s')], false⟩) := by
  constructor
  · rw [step_of_reading env s hp]
    unfold firstAction
    rw [if_neg h0, if_pos h1, process_line_skip env.curl _ _ h2]
    rfl
  · intro s' hs' g0 g1 g2 ts g3 g4
    subst hs'
    exact step_reading_sent env _ rfl g0 g1 g2 ts g3 g4

/-- C5 witness: in `envSkip` the short candidate line is skipped with a
`[SKIP]` log entry and the following well-formed record is sent. -/
theorem skip_wrong_field_count_w :
    step envSkip ⟨"a.txt", 0, 0, Phase.reading⟩ =
      StepResult.ok ⟨"a.txt", 1, 1, Phase.reading⟩
        ⟨[], ["[SKIP] Unexpected 'expected_len' in line " ++ toString 1 ++ " : "
              ++ pyStrip (readline envSkip ⟨"a.txt", 0, 0, Phase.reading⟩)], false⟩ ∧
    step envSkip ⟨"a.txt", 1, 1, Phase.reading⟩ =
      StepResult.ok ⟨"a.txt", 2, 2, Phase.reading⟩
        ⟨[line_protocol_of (pySplit (pyStrip (readline envSkip ⟨"a.txt", 1, 1, Phase.reading⟩)))
            1749506292000000000],
         ["[PARSED] Line " ++ toString 2 ++ " : "
          ++ pyStrip (readline envSkip ⟨"a.txt", 1, 1, Phase.reading⟩)], false⟩ :=
  ⟨(skip_wrong_field_count envSkip ⟨"a.txt", 0, 0, Phase.reading⟩ rfl (by decide)
      (by decide) (by decide)).1,
   (skip_wrong_field_count envSkip ⟨"a.txt", 0, 0, Phase.reading⟩ rfl (by decide)
      (by decide) (by decide)).2 ⟨"a.txt", 1, 1, Phase.reading⟩ rfl (by decide)
     (by decide) (by decide) 1749506292000000000 (by decide) (by decide)⟩

/-! ## Claim C6 -/

/-- C6 counterexample: a transiently missing current file is fatal — at the
open step the `FileNotFoundError` is re-raised by both `except` clauses of
`process_files` and the process exits 1 — contradicting the claim that
transiently missing files keep the machine running. -/
theorem missing_file_fatal_cx :
    step envGone ⟨"a.txt", 0, 0, Phase.opening⟩ = StepResult.fatal ⟨[], [], false⟩ ∧
    exit_code (engineRun envGone ⟨"a.txt", 0, 0, Phase.opening⟩ 1) = some 1 := by
  refine ⟨by decide, by decide⟩

/-- C6 (amended): Skip outcomes and an empty directory listing are non-fatal
and keep the tailing state machine running, but a missing current file at
open time is fatal (the `except` clauses re-raise every exception), as are
malformed candidate lines and transport failures; an interrupt exits with
status 0 and any other exception with status 1. -/
theorem fatality_taxonomy (env : Env) (s : EngineState) :
    (s.phase = Phase.reading → readline env s ≠ "" →
      pyStartsWith (pyStrip (readline env s)) MEASUREMENT = true →
      (pySplit (pyStrip (readline env s))).length ≠ expected_len →
      ∃ s' out, step env s = StepResult.ok s' out) ∧
    (s.phase = Phase.slept → readline env s = "" → env.listing = [] →
      step env s = StepResult.ok ⟨s.current, s.cursor, s.line_number, Phase.reading⟩
        ⟨[], [], false⟩) ∧
    (s.phase = Phase.opening → env.present s.current = false →
      step env s = StepResult.fatal ⟨[], [], false⟩ ∧
      exit_code (engineRun env s 1) = some 1) ∧
    main_exit MainOutcome.cleanInterrupt = 0 ∧
    main_exit MainOutcome.fatalException = 1 := by
  refine ⟨?_, ?_, ?_, rfl, rfl⟩
  · intro hp h0 h1 h2
    refine ⟨⟨s.current, s.cursor + 1, s.line_number + 1, Phase.reading⟩,
      ⟨[], ["[SKIP] Unexpected 'expected_len' in line " ++ toString (s.line_number + 1)
            ++ " : " ++ pyStrip (readline env s)], false⟩, ?_⟩
    rw [step_of_reading env s hp]
    unfold firstAction
    rw [if_neg h0, if_pos h1, process_line_skip env.curl _ _ h2]
    rfl
  · intro hp h0 hl
    rw [step_of_slept env s hp]
    unfold secondAction
    rw [if_pos h0]
    unfold rotateCheck
    rw [hl]
    rfl
  · intro hp hpres
    have hstep : step env s = StepResult.fatal ⟨[], [], false⟩ := by
      rw [step_of_opening env s hp]
      unfold openStep
      rw [hpres]
      rfl
    exact ⟨hstep, crashed_of_fatal env s _ hstep⟩

/-- C6 witness: a skip keeps `envSkip` running, an empty listing keeps
`envGone` running at the rotation check, and a missing file at open is
fatal with exit status 1. -/
theorem fatality_taxonomy_w :
    (∃ s' out, step envSkip ⟨"a.txt", 0, 0, Phase.reading⟩ = StepResult.ok s' out) ∧
    step envGone ⟨"a.txt", 0, 0, Phase.slept⟩ =
      StepResult.ok ⟨"a.txt", 0, 0, Phase.reading⟩ ⟨[], [], false⟩ ∧
    (step envGone ⟨"b.txt", 0, 0, Phase.opening⟩ = StepResult.fatal ⟨[], [], false⟩ ∧
      exit_code (engineRun envGone ⟨"b.txt", 0, 0, Phase.opening⟩ 1) = some 1) ∧
    main_exit MainOutcome.cleanInterrupt = 0 ∧
    main_exit MainOutcome.fatalException = 1 :=
  ⟨(fatality_taxonomy envSkip ⟨"a.txt", 0, 0, Phase.reading⟩).1 rfl (by decide)
      (by decide) (by decide),
   (fatality_taxonomy envGone ⟨"a.txt", 0, 0, Phase.slept⟩).2.1 rfl rfl rfl,
   (fatality_taxonomy envGone ⟨"b.txt", 0, 0, Phase.opening⟩).2.2.1 rfl rfl,
   (fatality_taxonomy envGone ⟨"a.txt", 0, 0, Phase.slept⟩).2.2.2⟩

/-! ## Claim C9 -/

theorem process_line_sends_le (curl : String → CurlBehavior) (line : String)
    (n : Nat) : (process_line curl line n).sends.length ≤ 1 := by
  by_cases hA : (pySplit line).length ≠ expected_len
  · rw [process_line_skip curl line n hA]
    simp
  · cases hts : iso_z_to_ns ((pySplit line).getLastD "") with
    | none =>
      rw [process_line_badts curl line n (not_not.mp hA) hts]
      simp
    | some t =>
      by_cases hc : curl (line_protocol_of (pySplit line) t) = CurlBehavior.success
      · rw [process_line_sent curl line n t (not_not.mp hA) hts hc]
        simp
      · rw [process_line_sendfail curl line n t (not_not.mp hA) hts hc]
        simp

theorem process_line_sends_valid (curl : String → CurlBehavior) (line : String)
    (n : Nat) (h : (process_line curl line n).sends ≠ []) :
    (pySplit line).length = expected_len ∧
    (iso_z_to_ns ((pySplit line).getLastD "")).isSome = true := by
  by_cases hA : (pySplit line).length ≠ expected_len
  · rw [process_line_skip curl line n hA] at h
    simp at h
  · refine ⟨not_not.mp hA, ?_⟩
    cases hts : iso_z_to_ns ((pySplit line).getLastD "") with
    | none =>
      rw [process_line_badts curl line n (not_not.mp hA) hts] at h
      simp at h
    | some t => rfl

theorem rotateCheck_sends (env : Env) (s : EngineState) :
    (outOf (rotateCheck env s)).sends = [] := by
  unfold rotateCheck
  cases find_next_file s.current env.listing <;> rfl

/-- C9: at most one payload is handed to the sender per engine step (each
step consumes at most one input line), and a payload is handed over only when
the stripped line starts with the measurement marker, splits into exactly 18
comma-separated fields, and its final field parses as a timestamp; every
other line produces no send. -/
theorem sends_only_for_valid_candidates (env : Env) (s : EngineState) :
    (outOf (step env s)).sends.length ≤ 1 ∧
    ((outOf (step env s)).sends ≠ [] →
      readline env s ≠ "" ∧
      pyStartsWith (pyStrip (readline env s)) MEASUREMENT = true ∧
      (pySplit (pyStrip (readline env s))).length = expected_len ∧
      (iso_z_to_ns ((pySplit (pyStrip (readline env s))).getLastD "")).isSome
        = true) := by
  obtain ⟨cur, c, n, ph⟩ := s
  cases ph
  case opening =>
    rw [step_of_opening env _ rfl]
    unfold openStep
    split_ifs <;> exact ⟨by simp [outOf], by simp [outOf]⟩
  case reading =>
    rw [step_of_reading env _ rfl]
    unfold firstAction
    by_cases h0 : readline env ⟨cur, c, n, Phase.reading⟩ = ""
    · rw [if_pos h0]
      exact ⟨by simp [outOf], by simp [outOf]⟩
    · rw [if_neg h0]
      by_cases h1 : pyStartsWith (pyStrip (readline env ⟨cur, c, n, Phase.reading⟩))
          MEASUREMENT = true
      · rw [if_pos h1]
        by_cases hr : (process_line env.curl
            (pyStrip (readline env ⟨cur, c, n, Phase.reading⟩)) (n + 1)).raised = true
        · rw [if_pos hr]
          refine ⟨by simpa [outOf] using process_line_sends_le env.curl _ (n + 1), ?_⟩
          intro hs
          simp only [outOf] at hs
          rcases process_line_sends_valid env.curl _ (n + 1) hs with ⟨hv1, hv2⟩
          exact ⟨h0, h1, hv1, hv2⟩
        · rw [if_neg hr]
          refine ⟨by simpa [outOf] using process_line_sends_le env.curl _ (n + 1), ?_⟩
          intro hs
          simp only [outOf] at hs
          rcases process_line_sends_valid env.curl _ (n + 1) hs with ⟨hv1, hv2⟩
          exact ⟨h0, h1, hv1, hv2⟩
      · rw [if_neg h1]
        exact ⟨by simp [outOf], by simp [outOf]⟩
  case slept =>
    rw [step_of_slept env _ rfl]
    unfold secondAction
    by_cases h0 : readline env ⟨cur, c, n, Phase.slept⟩ = ""
    · rw [if_pos h0]
      refine ⟨by simp [rotateCheck_sends], ?_⟩
      intro hs
      rw [rotateCheck_sends] at hs
      exact absurd rfl hs
    · rw [if_neg h0]
      by_cases h1 : pyStartsWith (pyStrip (readline env ⟨cur, c, n, Phase.slept⟩))
          MEASUREMENT = true
      · rw [if_pos h1]
        by_cases hr : (process_line env.curl
            (pyStrip (readline env ⟨cur, c, n, Phase.slept⟩)) (n + 1)).raised = true
        · rw [if_pos hr]
          refine ⟨by simpa [outOf] using process_line_sends_le env.curl _ (n + 1), ?_⟩
          intro hs
          simp only [outOf] at hs
          rcases process_line_sends_valid env.curl _ (n + 1) hs with ⟨hv1, hv2⟩
          exact ⟨h0, h1, hv1, hv2⟩
        · rw [if_neg hr]
          refine ⟨by simpa [outOf] using process_line_sends_le env.curl _ (n + 1), ?_⟩
          intro hs
          simp only [outOf] at hs
          rcases process_line_sends_valid env.curl _ (n + 1) hs with ⟨hv1, hv2⟩
          exact ⟨h0, h1, hv1, hv2⟩
      · rw [if_neg h1]
        refine ⟨by simp [rotateCheck_sends], ?_⟩
        intro hs
        rw [rotateCheck_sends] at hs
        exact absurd rfl hs

/-- C9 witness: on `envSkip`'s well-formed second line the step emits exactly
one send, and the theorem yields the validity conditions of that line. -/
theorem sends_only_for_valid_candidates_w :
    (outOf (step envSkip ⟨"a.txt", 1, 1, Phase.reading⟩)).sends.length ≤ 1 ∧
    (readline envSkip ⟨"a.txt", 1, 1, Phase.reading⟩ ≠ "" ∧
     pyStartsWith (pyStrip (readline envSkip ⟨"a.txt", 1, 1, Phase.reading⟩))
         MEASUREMENT = true ∧
     (pySplit (pyStrip (readline envSkip ⟨"a.txt", 1, 1, Phase.reading⟩))).length
         = expected_len ∧
     (iso_z_to_ns ((pySplit (pyStrip (readline envSkip
         ⟨"a.txt", 1, 1, Phase.reading⟩))).getLastD "")).isSome = true) :=
  ⟨(sends_only_for_valid_candidates envSkip ⟨"a.txt", 1, 1, Phase.reading⟩).1,
   (sends_only_for_valid_candidates envSkip ⟨"a.txt", 1, 1, Phase.reading⟩).2
     (by decide)⟩

/-! ## Claim C10 -/

theorem dropWhile_ws_append {w x : List Char} (hw : ∀ c ∈ w, pyWs c = true) :
    (w ++ x).dropWhile pyWs = x.dropWhile pyWs := by
  induction w with
  | nil => rfl
  | cons a as ih =>
    have ha : pyWs a = true := hw a (by simp)
    rw [List.cons_append, List.dropWhile_cons, if_pos ha]
    exact ih fun c hc => hw c (by simp [hc])

theorem dropWhile_ws_append_of_ne_nil {x : List Char} (y : List Char)
    (h : x.dropWhile pyWs ≠ []) :
    (x ++ y).dropWhile pyWs = x.dropWhile pyWs ++ y := by
  induction x with
  | nil => exact absurd rfl h
  | cons a as ih =>
    by_cases ha : pyWs a = true
    · rw [List.dropWhile_cons, if_pos ha] at h
      rw [List.cons_append, List.dropWhile_cons, if_pos ha, List.dropWhile_cons,
        if_pos ha]
      exact ih h
    · rw [List.cons_append, List.dropWhile_cons, if_neg ha, List.dropWhile_cons,
        if_neg ha, List.cons_append]

theorem pyStripL_ws_left {w x : List Char} (hw : ∀ c ∈ w, pyWs c = true) :
    pyStripL (w ++ x) = pyStripL x := by
  unfold pyStripL
  rw [dropWhile_ws_append hw]

theorem pyStripL_ws_right {x w : List Char} (hw : ∀ c ∈ w, pyWs c = true) :
    pyStripL (x ++ w) = pyStripL x := by
  unfold pyStripL
  by_cases h : x.dropWhile pyWs = []
  · have hxw : (x ++ w).dropWhile pyWs = [] := by
      rw [List.dropWhile_eq_nil_iff] at h ⊢
      intro c hc
      rcases List.mem_append.1 hc with h1 | h2
      · exact h c h1
      · exact hw c h2
    rw [h, hxw]
  · rw [dropWhile_ws_append_of_ne_nil w h, List.reverse_append,
      dropWhile_ws_append fun c hc => hw c (List.mem_reverse.1 hc)]

theorem mem_of_mem_pyStripL {c : Char} {l : List Char} (h : c ∈ pyStripL l) :
    c ∈ l := by
  unfold pyStripL at h
  rw [List.mem_reverse] at h
  have h2 := (List.dropWhile_sublist pyWs).subset h
  rw [List.mem_reverse] at h2
  exact (List.dropWhile_sublist pyWs).subset h2

theorem splitComma_ne_nil (l : List Char) : splitComma l ≠ [] := by
  induction l with
  | nil => simp [splitComma]
  | cons c cs ih =>
    unfold splitComma
    by_cases h : c = ','
    · rw [if_pos h]
      simp
    · rw [if_neg h]
      cases hsc : splitComma cs with
      | nil => simp
      | cons f rest => simp

theorem mem_splitComma {c : Char} : ∀ {l f : List Char},
    f ∈ splitComma l → c ∈ f → c ∈ l := by
  intro l
  induction l with
  | nil =>
    intro f hf hc
    simp [splitComma] at hf
    subst hf
    simp at hc
  | cons a as ih =>
    intro f hf hc
    unfold splitComma at hf
    by_cases ha : a = ','
    · rw [if_pos ha] at hf
      rcases List.mem_cons.1 hf with rfl | hf2
      · simp at hc
      · exact List.mem_cons_of_mem a (ih hf2 hc)
    · rw [if_neg ha] at hf
      cases hsc : splitComma as with
      | nil => exact absurd hsc (splitComma_ne_nil as)
      | cons g rest =>
        rw [hsc] at hf
        rcases List.mem_cons.1 hf with rfl | hf2
        · rcases List.mem_cons.1 hc with rfl | hc2
          · exact List.mem_cons_self _ _
          · exact List.mem_cons_of_mem _ (ih (by rw [hsc]; exact List.mem_cons_self _ _) hc2)
        · exact List.mem_cons_of_mem _ (ih (by rw [hsc]; exact List.mem_cons_of_mem _ hf2) hc)

theorem pyStripL_no_newline {l : List Char}
    (h : ∀ c ∈ l.dropLast, c ≠ '\n') : '\n' ∉ pyStripL l := by
  intro hmem
  rcases eq_or_ne l [] with rfl | hne
  · simp [pyStripL] at hmem
  · by_cases hlast : l.getLast hne = '\n'
    · have heq : pyStripL l = pyStripL l.dropLast := by
        have h2 : pyStripL (l.dropLast ++ [l.getLast hne]) = pyStripL l.dropLast :=
          pyStripL_ws_right (by
            intro c hc
            simp at hc
            subst hc
            rw [hlast]
            decide)
        rw [List.dropLast_append_getLast hne] at h2
        exact h2
      rw [heq] at hmem
      exact h '\n' (mem_of_mem_pyStripL hmem) rfl
    · have hl : '\n' ∈ l := mem_of_mem_pyStripL hmem
      rw [← List.dropLast_append_getLast hne] at hl
      rcases List.mem_append.1 hl with h1 | h2
      · exact h '\n' h1 rfl
      · simp at h2
        exact hlast h2.symm

theorem firstAction_strip_only (env : Env) (s : EngineState) {raw₁ raw₂ : String}
    (h₁ : raw₁ ≠ "") (h₂ : raw₂ ≠ "") (h : pyStrip raw₁ = pyStrip raw₂) :
    firstAction env s raw₁ = firstAction env s raw₂ := by
  unfold firstAction
  rw [if_neg h₁, if_neg h₂, h]

theorem secondAction_strip_only (env : Env) (s : EngineState) {raw₁ raw₂ : String}
    (h₁ : raw₁ ≠ "") (h₂ : raw₂ ≠ "") (h : pyStrip raw₁ = pyStrip raw₂) :
    secondAction env s raw₁ = secondAction env s raw₂ := by
  unfold secondAction
  rw [if_neg h₁, if_neg h₂, h]

/-- C10: every line read is whitespace-stripped before the marker test and
before the comma split.  Surrounding whitespace does not change the stripped
line (so a marker prefix preceded by whitespace still yields a candidate), a
step's handling of an available line depends only on the line's stripped
content, and no comma-split field of a stripped line — in particular the
final timestamp field — contains the line terminator `readline` appends. -/
theorem strip_semantics :
    (∀ (ws₁ ws₂ : List Char) (b : String), (∀ c ∈ ws₁, pyWs c = true) →
      (∀ c ∈ ws₂, pyWs c = true) →
      pyStrip (String.mk (ws₁ ++ (b.data ++ ws₂))) = pyStrip b) ∧
    (∀ (env : Env) (s : EngineState) (raw₁ raw₂ : String), raw₁ ≠ "" → raw₂ ≠ "" →
      pyStrip raw₁ = pyStrip raw₂ →
      firstAction env s raw₁ = firstAction env s raw₂ ∧
      secondAction env s raw₁ = secondAction env s raw₂) ∧
    (∀ raw : String, (∀ c ∈ raw.data.dropLast, c ≠ '\n') →
      ∀ f ∈ pySplit (pyStrip raw), '\n' ∉ f.data) := by
  refine ⟨?_, ?_, ?_⟩
  · intro ws₁ ws₂ b h₁ h₂
    refine congrArg String.mk ?_
    rw [pyStripL_ws_left h₁, pyStripL_ws_right h₂]
  · intro env s raw₁ raw₂ h₁ h₂ h
    exact ⟨firstAction_strip_only env s h₁ h₂ h, secondAction_strip_only env s h₁ h₂ h⟩
  · intro raw h f hf hmem
    obtain ⟨fl, hfl, rfl⟩ := List.mem_map.1 hf
    exact pyStripL_no_newline h (mem_splitComma hfl hmem)

/-- C10 witness: leading and trailing whitespace around a line leave the strip
unchanged, a junk line wrapped in whitespace is handled exactly like the bare
line, and the final field of a stripped record line contains no newline. -/
theorem strip_semantics_w :
    pyStrip (String.mk ([' ', ' '] ++ (("mydatameasurement,x").data ++ ['\n'])))
      = pyStrip "mydatameasurement,x" ∧
    firstAction envJunk ⟨"a.txt", 0, 0, Phase.reading⟩ " junk \n"
      = firstAction envJunk ⟨"a.txt", 0, 0, Phase.reading⟩ "junk" ∧
    '\n' ∉ ("x" : String).data :=
  ⟨strip_semantics.1 [' ', ' '] ['\n'] "mydatameasurement,x" (by decide) (by decide),
   (strip_semantics.2.1 envJunk ⟨"a.txt", 0, 0, Phase.reading⟩ " junk \n" "junk"
     (by decide) (by decide) (by decide)).1,
   strip_semantics.2.2 "mydatameasurement,host1,x\n" (by decide) "x" (by decide)⟩

/-! ## Claim C8 -/

theorem isDigit_dash_f : Char.isDigit '-' = false := by decide

theorem isDigit_colon_f : Char.isDigit ':' = false := by decide

theorem isDigit_T_f : Char.isDigit 'T' = false := by decide

theorem isDigit_Z_f : Char.isDigit 'Z' = false := by decide

theorem ne_space_of_isDigit {c : Char} (h : c.isDigit = true) : ¬(c = ' ') := by
  intro hc
  subst hc
  exact absurd h (by decide)

theorem takeDigits_cons_digit {c : Char} (h : c.isDigit = true) (cs : List Char) :
    takeDigits (c :: cs) = (c :: (takeDigits cs).1, (takeDigits cs).2) := by
  simp only [takeDigits]
  rw [if_pos h]

theorem takeDigits_cons_nondigit {c : Char} (h : c.isDigit = false) (cs : List Char) :
    takeDigits (c :: cs) = ([], c :: cs) := by
  simp only [takeDigits]
  rw [if_neg (by simp [h])]

theorem takeDigits_two {c1 c2 c3 : Char} (h1 : c1.isDigit = true)
    (h2 : c2.isDigit = true) (h3 : c3.isDigit = false) (r : List Char) :
    takeDigits (c1 :: c2 :: c3 :: r) = ([c1, c2], c3 :: r) := by
  rw [takeDigits_cons_digit h1, takeDigits_cons_digit h2, takeDigits_cons_nondigit h3]

theorem year4_eq {a b c d : Char} (ha : a.isDigit = true) (hb : b.isDigit = true)
    (hc : c.isDigit = true) (hd : d.isDigit = true) (rest : List Char) :
    year4 (a :: b :: c :: d :: rest)
      = some (1000 * dval a + 100 * dval b + 10 * dval c + dval d, rest) := by
  simp only [year4]
  rw [if_pos (by simp [ha, hb, hc, hd])]

theorem expect1_eq (a : Char) (r : List Char) : expect1 a (a :: r) = some r := by
  simp [expect1]

theorem expectCI_eq_left (a b : Char) (r : List Char) :
    expectCI a b (a :: r) = some r := by
  simp [expectCI]

theorem numField_two (oneOk twoOk : Nat → Prop) [DecidablePred oneOk]
    [DecidablePred twoOk] {c1 c2 c3 : Char} (h1 : c1.isDigit = true)
    (h2 : c2.isDigit = true) (h3 : c3.isDigit = false) (r : List Char)
    (hv : twoOk (10 * dval c1 + dval c2)) :
    numField oneOk twoOk (c1 :: c2 :: c3 :: r)
      = some (10 * dval c1 + dval c2, c3 :: r) := by
  unfold numField
  rw [takeDigits_two h1 h2 h3]
  exact if_pos hv

theorem dayField_two {c1 c2 c3 : Char} (h1 : c1.isDigit = true)
    (h2 : c2.isDigit = true) (h3 : c3.isDigit = false) (r : List Char)
    (hv : 1 ≤ 10 * dval c1 + dval c2 ∧ 10 * dval c1 + dval c2 ≤ 31) :
    dayField (c1 :: c2 :: c3 :: r) = some (10 * dval c1 + dval c2, c3 :: r) := by
  simp only [dayField]
  rw [if_neg (ne_space_of_isDigit h1)]
  exact numField_two (fun v => 1 ≤ v) (fun v => 1 ≤ v ∧ v ≤ 31) h1 h2 h3 r hv

theorem daysInMonth_le_31 (y m : Nat) : daysInMonth y m ≤ 31 := by
  unfold daysInMonth
  split_ifs <;> omega

/-- Every timestamp in the spec's exact zero-padded form denoting a valid
calendar date and time of day is accepted by the script's parser and converts
to the same epoch-nanosecond value. -/
theorem spec_exact_refines (s : String) (v : Int)
    (h : spec_exact_parse s = some v) : iso_z_to_ns s = some v := by
  unfold spec_exact_parse at h
  split at h
  · split_ifs at h with hdig hrange
    obtain ⟨hy1, hy2, hy3, hy4, hm1, hm2, hd1, hd2, hh1d, hh2d, hn1, hn2, he1, he2,
      ha1, ha2, hlt, hb1, hb2, hlz⟩ := hdig
    obtain ⟨hgy, hgm1, hgm2, hgd1, hgd2, hgh, hgn, hge⟩ := hrange
    subst ha1 ha2 hlt hb1 hb2 hlz
    injection h with h
    subst h
    unfold iso_z_to_ns strptime_iso_z
    rename_i heq
    rw [heq]
    simp only [Option.bind_eq_bind, year4_eq hy1 hy2 hy3 hy4, Option.some_bind,
      expect1_eq,
      numField_two (fun v => 1 ≤ v) (fun v => 1 ≤ v ∧ v ≤ 12) hm1 hm2
        isDigit_dash_f _ ⟨hgm1, hgm2⟩,
      dayField_two hd1 hd2 isDigit_T_f _
        ⟨hgd1, le_trans hgd2 (daysInMonth_le_31 _ _)⟩,
      expectCI_eq_left,
      numField_two (fun _ => True) (fun v => v ≤ 23) hh1d hh2d isDigit_colon_f _ hgh,
      numField_two (fun _ => True) (fun v => v ≤ 59) hn1 hn2 isDigit_colon_f _ hgn,
      numField_two (fun _ => True) (fun v => v ≤ 61) he1 he2 isDigit_Z_f _
        (le_trans hge (by omega))]
    simp [hgy, hgd2]
  · exact absurd h (by simp)

theorem append_lit (a b c : String) (h : a ++ b = c) (x : String) :
    a ++ (b ++ x) = c ++ x := by
  rw [← String.append_assoc, h]

/-- The hand-rolled `fields` and `line_protocol` f-strings of `process_line`
produce exactly the spec's serialization: the measurement name, the host tag,
the comma-joined `name=value` assignments and the nanosecond timestamp,
space-separated; the first comma-field of the line is ignored. -/
theorem line_protocol_spec (p0 host f1 f2 f3 f4 f5 f6 f7 f8 f9 f10 f11 f12 f13 f14
    f15 tsf : String) (ts : Int) :
    line_protocol_of [p0, host, f1, f2, f3, f4, f5, f6, f7, f8, f9, f10, f11,
        f12, f13, f14, f15, tsf] ts
      = spec_serialize host [f1, f2, f3, f4, f5, f6, f7, f8, f9, f10, f11, f12, f13,
        f14, f15] ts := by
  have hL : line_protocol_of [p0, host, f1, f2, f3, f4, f5, f6, f7, f8, f9, f10, f11,
      f12, f13, f14, f15, tsf] ts
      = MEASUREMENT ++ ",host=" ++ host ++ " "
        ++ ("T1=" ++ f1 ++ ",T2=" ++ f2 ++ ",T3=" ++ f3 ++ ",T4=" ++ f4
            ++ ",Pwr1=" ++ f5 ++ ",Pwr2=" ++ f6 ++ ",Pwr3=" ++ f7 ++ ",Pwr4=" ++ f8
            ++ ",LEDamp=" ++ f9 ++ ",LEDwidth=" ++ f10 ++ ",Threshold=" ++ f11
            ++ ",V1=" ++ f12 ++ ",V2=" ++ f13 ++ ",V3=" ++ f14 ++ ",V4=" ++ f15)
        ++ " " ++ toString ts := rfl
  have hR : spec_serialize host [f1, f2, f3, f4, f5, f6, f7, f8, f9, f10, f11, f12,
      f13, f14, f15] ts
      = MEASUREMENT ++ ",host=" ++ host ++ " "
        ++ ("T1=" ++ f1 ++ "," ++ ("T2=" ++ f2) ++ "," ++ ("T3=" ++ f3) ++ ","
            ++ ("T4=" ++ f4) ++ "," ++ ("Pwr1=" ++ f5) ++ "," ++ ("Pwr2=" ++ f6)
            ++ "," ++ ("Pwr3=" ++ f7) ++ "," ++ ("Pwr4=" ++ f8) ++ ","
            ++ ("LEDamp=" ++ f9) ++ "," ++ ("LEDwidth=" ++ f10) ++ ","
            ++ ("Threshold=" ++ f11) ++ "," ++ ("V1=" ++ f12) ++ ","
            ++ ("V2=" ++ f13) ++ "," ++ ("V3=" ++ f14) ++ "," ++ ("V4=" ++ f15))
        ++ " " ++ toString ts := rfl
  rw [hL, hR]
  simp only [String.append_assoc,
    append_lit "," "T2=" ",T2=" rfl, append_lit "," "T3=" ",T3=" rfl,
    append_lit "," "T4=" ",T4=" rfl, append_lit "," "Pwr1=" ",Pwr1=" rfl,
    append_lit "," "Pwr2=" ",Pwr2=" rfl, append_lit "," "Pwr3=" ",Pwr3=" rfl,
    append_lit "," "Pwr4=" ",Pwr4=" rfl, append_lit "," "LEDamp=" ",LEDamp=" rfl,
    append_lit "," "LEDwidth=" ",LEDwidth=" rfl,
    append_lit "," "Threshold=" ",Threshold=" rfl, append_lit "," "V1=" ",V1=" rfl,
    append_lit "," "V2=" ",V2=" rfl, append_lit "," "V3=" ",V3=" rfl,
    append_lit "," "V4=" ",V4=" rfl]

/-- C8 counterexample: the timestamp parser also accepts strings outside the
exact zero-padded `YYYY-MM-DDTHH:MM:SSZ` form — here one with unpadded month,
day and a length of 18 rather than 20 — so the final field is not accepted
only in the exact form. -/
theorem exact_form_cx :
    (iso_z_to_ns "2025-6-9T21:58:12Z").isSome = true ∧
    spec_exact_parse "2025-6-9T21:58:12Z" = none ∧
    ("2025-6-9T21:58:12Z").length ≠ 20 := by
  refine ⟨by decide, by decide, by decide⟩

/-- C8 (amended): every final field in the exact `YYYY-MM-DDTHH:MM:SSZ` form
denoting a valid calendar date and time of day is converted to UTC epoch
nanoseconds (the parser additionally tolerates the wider strptime pattern:
unpadded fields and lowercase `t`/`z`), and the record serializes to
`measurement,host=<host> <name1>=<v1>,...,<name15>=<v15> <timestamp_ns>`
with no escaping of field values. -/
theorem codec_timestamp_serialization :
    (∀ (s : String) (v : Int), spec_exact_parse s = some v → iso_z_to_ns s = some v) ∧
    (∀ (p0 host f1 f2 f3 f4 f5 f6 f7 f8 f9 f10 f11 f12 f13 f14 f15 tsf : String)
        (ts : Int),
      line_protocol_of [p0, host, f1, f2, f3, f4, f5, f6, f7, f8, f9, f10, f11,
          f12, f13, f14, f15, tsf] ts
        = spec_serialize host [f1, f2, f3, f4, f5, f6, f7, f8, f9, f10, f11, f12,
          f13, f14, f15] ts) :=
  ⟨spec_exact_refines, line_protocol_spec⟩

/-- C8 witness: the conversion and the serialization at a concrete record. -/
theorem codec_timestamp_serialization_w :
    iso_z_to_ns "2025-06-09T21:58:12Z" = some 1749506292000000000 ∧
    line_protocol_of ["mydatameasurement", "host1", "1", "2", "3", "4", "5", "6",
        "7", "8", "9", "10", "11", "12", "13", "14", "15", "2025-06-09T21:58:12Z"]
        1749506292000000000
      = spec_serialize "host1" ["1", "2", "3", "4", "5", "6", "7", "8", "9", "10",
        "11", "12", "13", "14", "15"] 1749506292000000000 :=
  ⟨codec_timestamp_serialization.1 "2025-06-09T21:58:12Z" 1749506292000000000
      (by decide),
   codec_timestamp_serialization.2 "mydatameasurement" "host1" "1" "2" "3" "4" "5"
     "6" "7" "8" "9" "10" "11" "12" "13" "14" "15" "2025-06-09T21:58:12Z"
     1749506292000000000⟩
